import Mathlib

/-!
# Verification of the zone-update DNS provider library

A shallow embedding of the provider-abstraction core of the `zone-update`
crate: the TXT quoting normalizer (`lib.rs`), the Bunny record-type wire
encoding (`bunny/types.rs`), the HTTP status-code contract (`http.rs`), and
the Cloudflare / Porkbun / Bunny / Linode adapter request paths
(`cloudflare/mod.rs`, `porkbun/mod.rs`, `bunny/mod.rs`, `linode/mod.rs`),
together with a small interleaving model of the mutex-guarded identifier
cache.

Rust strings are modelled as `List Char` where byte/character distinctions
matter (the quoting normalizer) and as Lean `String` elsewhere; machine
integers (`u64`, `u32`) are modelled as `Nat` (all values involved are small
wire codes or identifiers, no overflow arithmetic is performed on them);
fallible operations return `Except Error`; a `Vec::remove(0)` on a possibly
empty vector is modelled by the explicit `PanicOr` outcome type.
-/

namespace ZoneUpdate

/-! ## TXT quoting normalizer (`lib.rs`)

`ensure_quotes` / `strip_quotes` operate on Rust `&str`.  We model a
string as its list of characters.  Rust's `str::len` is the length in
*bytes*, which `strip_quotes` mixes with a character-wise `take`; the
byte length is recovered from the characters via their UTF-8 sizes. -/

/-- `char::len_utf8` from Rust: the number of bytes in the UTF-8 encoding
of a character. -/
def len_utf8 (c : Char) : Nat :=
  if c.toNat < 0x80 then 1
  else if c.toNat < 0x800 then 2
  else if c.toNat < 0x10000 then 3
  else 4

/-- Rust `str::len`: the length of the string in bytes. -/
def str_len (s : List Char) : Nat := (s.map len_utf8).sum

/-- `record.starts_with('"')`. -/
def starts_with_quote (s : List Char) : Bool := s.head? == some '"'

/-- `record.ends_with('"')`. -/
def ends_with_quote (s : List Char) : Bool := s.getLast? == some '"'

/-- `ensure_quotes` from `lib.rs`: match on
`(record.starts_with('"'), record.ends_with('"'))`; `(true,true)` returns
the record unchanged, `(true,false)` appends a quote, `(false,true)`
prepends one, `(false,false)` wraps the record in quotes. -/
def ensure_quotes (record : List Char) : List Char :=
  match starts_with_quote record, ends_with_quote record with
  | true, true => record
  | true, false => record ++ ['"']
  | false, true => '"' :: record
  | false, false => '"' :: (record ++ ['"'])

/-- `strip_quotes` from `lib.rs`: `first` is `chars.next()`, `last` is the
last of the *remaining* iterator (`check.last()` after one `next`).  When
both are `'"'`, the result is `chars.skip(1).take(record.len() - 2)` —
note that `record.len()` is the length in bytes while `take` counts
characters.  Otherwise the record is returned unchanged (with a logged
warning). -/
def strip_quotes (record : List Char) : List Char :=
  if record.head? = some '"' ∧ (record.drop 1).getLast? = some '"' then
    (record.drop 1).take (str_len record - 2)
  else
    record

/-! ## Record types and the Bunny wire encoding (`lib.rs`, `bunny/types.rs`) -/

/-- The `RecordType` enumeration from `lib.rs`. -/
inductive RecordType where
  | A
  | AAAA
  | CAA
  | CNAME
  | MX
  | NS
  | PTR
  | SRV
  | TXT
  | SVCB
  | HTTPS
deriving DecidableEq, Repr

/-- The crate error enumeration from `errors.rs` (the variants used by the
provider-abstraction core; the transparent wrappers around foreign error
types are collapsed to a message-carrying `JsonError`/`IoError`). -/
inductive Error where
  | ApiError (msg : String)
  | AuthError (msg : String)
  | HttpError (msg : String)
  | UrlError (msg : String)
  | UnexpectedRecord (msg : String)
  | RecordNotFound (msg : String)
  | LockingError (msg : String)
  | JsonError (msg : String)
  | IoError (msg : String)
deriving DecidableEq, Repr

/-- `impl From<RecordType> for u64` in `bunny/types.rs`: Bunny's integer
wire codes for the record types it supports. -/
def bunny_u64_from : RecordType → Nat
  | .A => 0
  | .AAAA => 1
  | .CNAME => 2
  | .TXT => 3
  | .MX => 4
  | .SRV => 8
  | .CAA => 9
  | .PTR => 10
  | .NS => 12
  | .SVCB => 13
  | .HTTPS => 14

/-- `impl TryFrom<u64> for RecordType` in `bunny/types.rs`: codes 5, 6, 7
and 11 (Redirect, Flatten, PullZone, Script) and everything from 15 up fall
through to the `ApiError` arm. -/
def bunny_try_from (value : Nat) : Except Error RecordType :=
  match value with
  | 0 => .ok .A
  | 1 => .ok .AAAA
  | 2 => .ok .CNAME
  | 3 => .ok .TXT
  | 4 => .ok .MX
  | 8 => .ok .SRV
  | 9 => .ok .CAA
  | 10 => .ok .PTR
  | 12 => .ok .NS
  | 13 => .ok .SVCB
  | 14 => .ok .HTTPS
  | v => .error (.ApiError ("Invalid RecordType ID " ++ toString v))

/-- Whether an `Except` result is an error. -/
def is_err {α : Type} : Except Error α → Bool
  | .error _ => true
  | .ok _ => false

/-! ## HTTP transport layer (`http.rs`)

`get_with_headers` performs the request and dispatches on the status code:
`200` parses the body, `404` is `Ok(None)`, anything else becomes the error
built by `from_error`.  The JSON deserialisation of the body
(`serde_json::from_reader`) is abstracted as a `decode` function, and the
already-performed request as an `Except Error HttpResponse` value (the
`request(...)` call can itself fail before a response exists). -/

/-- An upstream HTTP response: status code and raw body. -/
structure HttpResponse where
  status : Nat
  body : String
deriving DecidableEq, Repr

/-- Rust's `{:?}` debug formatting of the body string read by `from_error`
(character escapes elided: none of the bodies considered here contain
characters that `{:?}` escapes). -/
def debug_fmt (s : String) : String := "\"" ++ s ++ "\""

/-- `from_error` from `http.rs`: reads the response body and builds
`Error::HttpError(format!("REST op failed: {code} {err:?}"))`.  `Display`
for the status renders its numeric code (followed by the canonical reason
phrase, which this model elides — it is a pure function of the code). -/
def from_error (res : HttpResponse) : Error :=
  .HttpError ("REST op failed: " ++ toString res.status ++ " " ++ debug_fmt res.body)

/-- `get_with_headers` from `http.rs`. -/
def get_with_headers {T : Type} (decode : String → Except Error T)
    (res : Except Error HttpResponse) : Except Error (Option T) :=
  match res with
  | .error e => .error e
  | .ok r =>
    if r.status = 200 then
      match decode r.body with
      | .ok obj => .ok (some obj)
      | .error e => .error e
    else if r.status = 404 then
      .ok none
    else
      .error (from_error r)

/-- Whether a result is an `Err` of the `ApiError` variant. -/
def is_api_error {α : Type} : Except Error α → Bool
  | .error (.ApiError _) => true
  | _ => false

/-- Modelled from the spec: `ResponseToOption::to_option`, the response
helper of the blocking `http::client()` transport used by the synchronous
adapters.  That transport module is not among the sources (only its callers
are), so it is modelled from the spec's HTTP status-code contract:
"200 → parse body as the expected type; 404 → treat as not found
(`Ok(None)`), never an error; any other status → reported `ApiError`
carrying the status and raw response body". -/
def to_option {T : Type} (decode : String → Except Error T)
    (res : Except Error HttpResponse) : Except Error (Option T) :=
  match res with
  | .error e => .error e
  | .ok r =>
    if r.status = 200 then
      match decode r.body with
      | .ok obj => .ok (some obj)
      | .error e => .error e
    else if r.status = 404 then
      .ok none
    else
      .error (.ApiError ("REST op failed: " ++ toString r.status ++ " " ++ debug_fmt r.body))

/-! ## Cloudflare adapter (`cloudflare/mod.rs`)

The adapter's network interactions are abstracted as an upstream oracle
holding the raw response of each GET endpoint together with its JSON
decoder; the mutable `zone_id: Mutex<Option<String>>` cache is threaded
explicitly as an `Option String` state, and each operation also returns the
list of HTTP calls it issued.  `Vec::remove(0)` on a possibly-empty vector
is a panic, modelled by `PanicOr`. -/

/-- Outcome of code that may panic. -/
inductive PanicOr (α : Type) where
  | panics
  | ok (val : α)
deriving DecidableEq, Repr

/-- Cloudflare's response envelope (`cloudflare/types.rs::Response`). -/
structure CfResponse (R : Type) where
  success : Bool
  result : R
deriving DecidableEq, Repr

/-- `cloudflare/types.rs::ZoneInfo` (the field the adapter uses). -/
structure ZoneInfo where
  id : String
deriving DecidableEq, Repr

/-- `cloudflare/types.rs::GetRecord` (the fields the adapter uses). -/
structure CfGetRecord (T : Type) where
  id : String
  content : T
deriving DecidableEq, Repr

/-- `check_response` from `cloudflare/mod.rs`: a missing (404) response is
`Err(RecordNotFound)`, an unsuccessful envelope is `Err(ApiError)`. -/
def check_response {R : Type} (response : Option (CfResponse R)) : Except Error R :=
  match response with
  | none => .error (.RecordNotFound "Record not found")
  | some r => if !r.success then .error (.ApiError "Failed to find record") else .ok r.result

/-- The HTTP calls the Cloudflare adapter can issue.  The two GETs are
read-only; the POST/PUT/DELETE record endpoints mutate upstream state. -/
inductive CfCall where
  | zones_get
  | records_get
  | record_post
  | record_put
  | record_delete
deriving DecidableEq, Repr

def CfCall.mutates : CfCall → Bool
  | .zones_get => false
  | .records_get => false
  | .record_post => true
  | .record_put => true
  | .record_delete => true

/-- The Cloudflare upstream oracle: raw responses and decoders for the two
GET endpoints (zone lookup, record list). -/
structure CfUpstream (T : Type) where
  zones_http : Except Error HttpResponse
  zones_decode : String → Except Error (CfResponse (List ZoneInfo))
  records_http : Except Error HttpResponse
  records_decode : String → Except Error (CfResponse (List (CfGetRecord T)))

/-- `Cloudflare::get_zone_info`: GET the zone list, `check_response`, then
`zones.remove(0)` — which panics when the (successful) zone list is empty. -/
def cf_get_zone_info {T : Type} (u : CfUpstream T) : PanicOr (Except Error ZoneInfo) :=
  match to_option u.zones_decode u.zones_http with
  | .error e => .ok (.error e)
  | .ok resp =>
    match check_response resp with
    | .error e => .ok (.error e)
    | .ok zones =>
      match zones with
      | [] => .panics
      | z :: _ => .ok (.ok z)

/-- `Cloudflare::get_zone_id`: lock the cache (lock poisoning is not
modelled — it requires a prior panic), return the cached id if present,
otherwise resolve via `get_zone_info` *while holding the lock* and store
the result.  Returns (result, new cache contents, calls issued). -/
def cf_get_zone_id {T : Type} (u : CfUpstream T) (cache : Option String) :
    PanicOr (Except Error String × Option String × List CfCall) :=
  match cache with
  | some id => .ok (.ok id, some id, [])
  | none =>
    match cf_get_zone_info u with
    | .panics => .panics
    | .ok (.error e) => .ok (.error e, none, [CfCall.zones_get])
    | .ok (.ok zone) => .ok (.ok zone.id, some zone.id, [CfCall.zones_get])

/-- `Cloudflare::get_upstream_record`: resolve the zone id, GET the records
matching `(host, rtype)`, `check_response`, then enforce the single-record
assumption: length > 1 is `Err(UnexpectedRecord)`, length 0 is `Ok(None)`,
otherwise `Ok(Some(recs.remove(0)))`. -/
def cf_get_upstream_record {T : Type} (u : CfUpstream T) (cache : Option String) :
    PanicOr (Except Error (Option (CfGetRecord T)) × Option String × List CfCall) :=
  match cf_get_zone_id u cache with
  | .panics => .panics
  | .ok (.error e, c, calls) => .ok (.error e, c, calls)
  | .ok (.ok _zid, c, calls) =>
    let calls := calls ++ [CfCall.records_get]
    match to_option u.records_decode u.records_http with
    | .error e => .ok (.error e, c, calls)
    | .ok resp =>
      match check_response resp with
      | .error e => .ok (.error e, c, calls)
      | .ok recs =>
        if recs.length > 1 then
          .ok (.error (.UnexpectedRecord
            ("Returned number of records is " ++ toString recs.length ++ ", should be 1")),
            c, calls)
        else if recs.length = 0 then
          .ok (.ok none, c, calls)
        else
          match recs with
          | r :: _ => .ok (.ok (some r), c, calls)
          | [] => .panics

/-- `Cloudflare::get_record` (`DnsProvider` impl): project the `content`
field out of the upstream record. -/
def cf_get_record {T : Type} (u : CfUpstream T) (cache : Option String) :
    PanicOr (Except Error (Option T) × Option String × List CfCall) :=
  match cf_get_upstream_record u cache with
  | .panics => .panics
  | .ok (.error e, c, calls) => .ok (.error e, c, calls)
  | .ok (.ok none, c, calls) => .ok (.ok none, c, calls)
  | .ok (.ok (some rec), c, calls) => .ok (.ok (some rec.content), c, calls)

/-- `Cloudflare::create_record`: resolve the zone id, then — unless
`dry_run` is set, in which case the intended request is only logged — POST
the new record.  `post_resp` abstracts the outcome of the POST. -/
def cf_create_record {T : Type} (dry_run : Bool) (u : CfUpstream T)
    (post_resp : Except Error Unit) (cache : Option String) :
    PanicOr (Except Error Unit × Option String × List CfCall) :=
  match cf_get_zone_id u cache with
  | .panics => .panics
  | .ok (.error e, c, calls) => .ok (.error e, c, calls)
  | .ok (.ok _zid, c, calls) =>
    if dry_run then .ok (.ok (), c, calls)
    else
      match post_resp with
      | .error e => .ok (.error e, c, calls ++ [CfCall.record_post])
      | .ok _ => .ok (.ok (), c, calls ++ [CfCall.record_post])

/-- `Cloudflare::delete_record`: look up the existing record (a missing
record is a logged no-op success), resolve the zone id again, then — unless
`dry_run` is set — DELETE by the provider-assigned record id. -/
def cf_delete_record (dry_run : Bool) (u : CfUpstream String)
    (delete_resp : Except Error Unit) (cache : Option String) :
    PanicOr (Except Error Unit × Option String × List CfCall) :=
  match cf_get_upstream_record u cache with
  | .panics => .panics
  | .ok (.error e, c, calls) => .ok (.error e, c, calls)
  | .ok (.ok none, c, calls) => .ok (.ok (), c, calls)
  | .ok (.ok (some _rec), c, calls) =>
    match cf_get_zone_id u c with
    | .panics => .panics
    | .ok (.error e, c2, calls2) => .ok (.error e, c2, calls ++ calls2)
    | .ok (.ok _zid, c2, calls2) =>
      if dry_run then .ok (.ok (), c2, calls ++ calls2)
      else
        match delete_resp with
        | .error e => .ok (.error e, c2, calls ++ calls2 ++ [CfCall.record_delete])
        | .ok _ => .ok (.ok (), c2, calls ++ calls2 ++ [CfCall.record_delete])

/-! ## Porkbun adapter (`porkbun/mod.rs`)

Porkbun has no identifier cache; its record lookup is a POST to
`retrieveByNameType` (a read — it does not change upstream record state),
and create/edit/delete are mutating POSTs. -/

inductive PbCall where
  | retrieve_post
  | create_post
  | edit_post
  | delete_post
deriving DecidableEq, Repr

def PbCall.mutates : PbCall → Bool
  | .retrieve_post => false
  | .create_post => true
  | .edit_post => true
  | .delete_post => true

/-- `porkbun/types.rs::Record` (the fields the adapter uses). -/
structure PbRecord (T : Type) where
  id : Nat
  content : T
deriving DecidableEq, Repr

/-- `porkbun/types.rs::Records`. -/
structure PbRecords (T : Type) where
  records : List (PbRecord T)
deriving DecidableEq, Repr

/-- The Porkbun upstream oracle for the `retrieveByNameType` lookup. -/
structure PbUpstream (T : Type) where
  retrieve_http : Except Error HttpResponse
  retrieve_decode : String → Except Error (PbRecords T)

/-- `Porkbun::get_upstream_record`: POST the lookup, then enforce the
single-record assumption exactly as Cloudflare does (`nr > 1` →
`Err(UnexpectedRecord)`, `nr == 0` → `Ok(None)`, else
`Ok(Some(recs.records.remove(0)))`). -/
def pb_get_upstream_record {T : Type} (u : PbUpstream T) :
    PanicOr (Except Error (Option (PbRecord T)) × List PbCall) :=
  match to_option u.retrieve_decode u.retrieve_http with
  | .error e => .ok (.error e, [PbCall.retrieve_post])
  | .ok none => .ok (.ok none, [PbCall.retrieve_post])
  | .ok (some recs) =>
    if recs.records.length > 1 then
      .ok (.error (.UnexpectedRecord
        ("Returned number of records is " ++ toString recs.records.length ++ ", should be 1")),
        [PbCall.retrieve_post])
    else if recs.records.length = 0 then
      .ok (.ok none, [PbCall.retrieve_post])
    else
      match recs.records with
      | r :: _ => .ok (.ok (some r), [PbCall.retrieve_post])
      | [] => .panics

/-- `Porkbun::create_record`: unless `dry_run` is set, POST the creation
request. -/
def pb_create_record (dry_run : Bool) (create_resp : Except Error Unit) :
    Except Error Unit × List PbCall :=
  if dry_run then (.ok (), [])
  else
    match create_resp with
    | .error e => (.error e, [PbCall.create_post])
    | .ok _ => (.ok (), [PbCall.create_post])

/-- `Porkbun::update_record`: look up the existing record; when none
exists, fall back to `create_record`; otherwise — unless `dry_run` is
set — POST to the edit endpoint for the record's id. -/
def pb_update_record {T : Type} (dry_run : Bool) (u : PbUpstream T)
    (create_resp edit_resp : Except Error Unit) :
    PanicOr (Except Error Unit × List PbCall) :=
  match pb_get_upstream_record u with
  | .panics => .panics
  | .ok (.error e, calls) => .ok (.error e, calls)
  | .ok (.ok none, calls) =>
    let res := pb_create_record dry_run create_resp
    .ok (res.1, calls ++ res.2)
  | .ok (.ok (some _rec), calls) =>
    if dry_run then .ok (.ok (), calls)
    else
      match edit_resp with
      | .error e => .ok (.error e, calls ++ [PbCall.edit_post])
      | .ok _ => .ok (.ok (), calls ++ [PbCall.edit_post])

/-! ## Bunny adapter record filtering (`bunny/mod.rs`)

Bunny's record endpoint returns *all* records of the zone; the adapter
filters the raw JSON array on `obj["Type"]` (a number compared against
`u64::from(rtype)`) and `obj["Name"] == host`, and takes `.next()` — the
*first* match — with no cardinality check.  A record's raw JSON object is
modelled by the fields the filter and the subsequent deserialisation
inspect; per-record deserialisation (`serde_json::from_value`, propagated
by `.transpose()?`) is taken to succeed for these well-formed records. -/

/-- A raw record object from Bunny's mixed-type `Records` array:
`type_code` is `obj["Type"].as_u64()` when `obj["Type"]` is a JSON number
(`none` otherwise). -/
structure BunnyRaw where
  type_code : Option Nat
  name : String
  id : Nat
  value : String
deriving DecidableEq, Repr

/-- The filter inside `Bunny::get_upstream_record`:
`data.iter().filter_map(..).next()` keeps the records whose `Type` code
equals `u64::from(rtype)` and whose `Name` equals `host`, and yields the
first one (if any). -/
def bunny_filter_records (u64rtype : Nat) (host : String) (data : List BunnyRaw) :
    Option BunnyRaw :=
  (data.filter (fun obj => obj.type_code == some u64rtype && obj.name == host)).head?

/-- `Bunny::get_record` (given an already-resolved zone id): project the
`value` field out of the first matching record; no matching record is
`Ok(None)`. -/
def bunny_get_record (u64rtype : Nat) (host : String) (data : List BunnyRaw) :
    Except Error (Option String) :=
  match bunny_filter_records u64rtype host data with
  | none => .ok none
  | some rec => .ok (some rec.value)

/-- Whether a result is an `Err` of the `UnexpectedRecord` variant. -/
def is_unexpected_record {α : Type} : Except Error α → Bool
  | .error (.UnexpectedRecord _) => true
  | _ => false

/-! ## Linode identifier cache (`linode/mod.rs`) -/

/-- `linode/types.rs::Domain` (the fields the adapter uses). -/
structure LinodeDomain where
  id : Nat
  domain : String
deriving DecidableEq, Repr

/-- `linode/types.rs::List`. -/
structure LinodeList (T : Type) where
  data : List T
deriving DecidableEq, Repr

/-- The Linode upstream oracle for the domain-list GET. -/
structure LinodeUpstream where
  domains_http : Except Error HttpResponse
  domains_decode : String → Except Error (LinodeList LinodeDomain)

/-- `Linode::get_domain`: GET the domain list (an absent response is
`Err(ApiError)`), filter by the configured domain and take the first match
(`Err(RecordNotFound)` when there is none). -/
def linode_get_domain (cfg_domain : String) (u : LinodeUpstream) :
    Except Error LinodeDomain :=
  match to_option u.domains_decode u.domains_http with
  | .error e => .error e
  | .ok none => .error (.ApiError "No domains returned from upstream")
  | .ok (some list) =>
    match (list.data.filter (fun d => d.domain == cfg_domain)).head? with
    | none => .error (.RecordNotFound cfg_domain)
    | some d => .ok d

/-- `Linode::get_domain_id`: lock the cache, return the cached id if
present, otherwise resolve via `get_domain` while holding the lock and
store the result.  The third component counts the upstream domain-list
calls issued (0 or 1). -/
def linode_get_domain_id (cfg_domain : String) (u : LinodeUpstream)
    (cache : Option Nat) : Except Error Nat × Option Nat × Nat :=
  match cache with
  | some id => (.ok id, some id, 0)
  | none =>
    match linode_get_domain cfg_domain u with
    | .error e => (.error e, none, 1)
    | .ok d => (.ok d.id, some d.id, 1)

/-! ## Sequential iteration of the identifier caches (for C5) -/

/-- `n` sequential calls to `Cloudflare::get_zone_id` on the same adapter
instance, threading the cache; returns the final cache contents and the
concatenation of all calls issued. -/
def cf_zone_id_iter {T : Type} (u : CfUpstream T) :
    Nat → Option String → PanicOr (Option String × List CfCall)
  | 0, c => .ok (c, [])
  | n + 1, c =>
    match cf_get_zone_id u c with
    | .panics => .panics
    | .ok (_res, c1, calls) =>
      match cf_zone_id_iter u n c1 with
      | .panics => .panics
      | .ok (c2, rest) => .ok (c2, calls ++ rest)

/-- `n` sequential calls to `Linode::get_domain_id`, threading the cache;
returns the final cache contents and the total number of upstream
domain-list calls. -/
def linode_domain_id_iter (cfg_domain : String) (u : LinodeUpstream) :
    Nat → Option Nat → Option Nat × Nat
  | 0, c => (c, 0)
  | n + 1, c =>
    let r := linode_get_domain_id cfg_domain u c
    let rest := linode_domain_id_iter cfg_domain u n r.2.1
    (rest.1, r.2.2 + rest.2)

/-! ## Interleaving model of the lock-guarded identifier cache (for C9)

`get_zone_id` (Cloudflare) and `get_id` (DnSimple) acquire the cache
mutex, check the cached identifier, and — on a miss — perform the upstream
resolution and store its result *before releasing the lock*.  Two
concurrent first-time callers are modelled as two threads, each executing
exactly that program; every shared-state access happens between acquire
and release, so each thread contributes the steps below and a scheduler
interleaves them.  The cache is abstracted to whether it is populated, and
`count` counts upstream resolution calls.  -/

/-- Program counter of one caller of `get_zone_id`:
`start` = about to acquire the mutex;
`locked` = holds the mutex, about to check the cache;
`resolving` = holds the mutex, upstream resolution call in flight;
`done` = returned (mutex released). -/
inductive PC where
  | start
  | locked
  | resolving
  | done
deriving DecidableEq, Repr

/-- Global state of two concurrent `get_zone_id` callers on one adapter
instance. -/
structure Sys where
  pc1 : PC
  pc2 : PC
  lock : Option (Fin 2)
  cache : Bool
  count : Nat
deriving DecidableEq, Repr

/-- The steps thread `i` can take from `s`:
acquire the free mutex; with the mutex held, either return the cached id
(hit) or issue the upstream resolution call (miss, incrementing `count`
while still holding the mutex); after resolving, store the result in the
cache and release the mutex. -/
def step_thread (i : Fin 2) (s : Sys) : List Sys :=
  let pc := if i = 0 then s.pc1 else s.pc2
  let set_pc := fun (s' : Sys) (p : PC) =>
    if i = 0 then { s' with pc1 := p } else { s' with pc2 := p }
  match pc with
  | .start => if s.lock = none then [set_pc { s with lock := some i } .locked] else []
  | .locked =>
    if s.lock = some i then
      if s.cache then [set_pc { s with lock := none } .done]
      else [set_pc { s with count := s.count + 1 } .resolving]
    else []
  | .resolving =>
    if s.lock = some i then [set_pc { s with cache := true, lock := none } .done]
    else []
  | .done => []

/-- All states reachable from `s` in one scheduler step. -/
def next (s : Sys) : List Sys := step_thread 0 s ++ step_thread 1 s

/-- Initial state: both callers about to make their first call, mutex
free, cache empty, no upstream resolution yet. -/
def init : Sys := ⟨.start, .start, none, false, 0⟩

/-- Reachability under the interleaving semantics. -/
inductive Reaches : Sys → Sys → Prop where
  | refl (s : Sys) : Reaches s s
  | tail {s t u : Sys} : Reaches s t → u ∈ next t → Reaches s u

/-- One saturation step of the reachable-state enumeration. -/
def reach_step (ss : List Sys) : List Sys := (ss ++ ss.flatMap next).dedup

/-- The reachable-state set from `init`, as a finite enumeration (eight
saturation rounds suffice: each thread takes at most three steps). -/
def reach : List Sys := reach_step^[8] [init]

/-! ## Upstream state transitions and concrete fixtures -/

/-- Replay a list of issued HTTP calls against an upstream state `st`:
a mutating call acts through `f`, a read-only call leaves the state
unchanged.  Used to state that a dry-run operation leaves the upstream
record state — and hence any subsequent `get_record` — unchanged. -/
def apply_calls {Call St : Type} (mutates : Call → Bool) (f : Call → St → St)
    (calls : List Call) (st : St) : St :=
  calls.foldl (fun s c => if mutates c then f c s else s) st

/-- Fixture: a Cloudflare upstream whose zone lookup succeeds with the
single zone `zone1` and whose record query returns a successful empty
list. -/
def cf_fix : CfUpstream Nat :=
  ⟨.ok ⟨200, "zl"⟩, fun _ => .ok ⟨true, [⟨"zone1"⟩]⟩,
   .ok ⟨200, "rl"⟩, fun _ => .ok ⟨true, []⟩⟩

/-- Fixture: same zone, one matching record. -/
def cf_fix_one : CfUpstream String :=
  ⟨.ok ⟨200, "zl"⟩, fun _ => .ok ⟨true, [⟨"zone1"⟩]⟩,
   .ok ⟨200, "rl"⟩, fun _ => .ok ⟨true, [⟨"rec1", "10.9.8.7"⟩]⟩⟩

/-- Fixture: same zone, two records matching the queried host and type. -/
def cf_fix_two : CfUpstream String :=
  ⟨.ok ⟨200, "zl"⟩, fun _ => .ok ⟨true, [⟨"zone1"⟩]⟩,
   .ok ⟨200, "rl"⟩, fun _ => .ok ⟨true, [⟨"rec1", "10.9.8.7"⟩, ⟨"rec2", "10.1.2.3"⟩]⟩⟩

/-- Fixture: same zone, record query answered with HTTP 404. -/
def cf_fix_404 : CfUpstream String :=
  ⟨.ok ⟨200, "zl"⟩, fun _ => .ok ⟨true, [⟨"zone1"⟩]⟩,
   .ok ⟨404, "not found"⟩, fun _ => .error (.JsonError "unused")⟩

/-- Fixture: zone lookup succeeds (`success == true`) with an *empty* zone
list. -/
def cf_fix_no_zones : CfUpstream Nat :=
  ⟨.ok ⟨200, "zl"⟩, fun _ => .ok ⟨true, []⟩,
   .ok ⟨200, "rl"⟩, fun _ => .ok ⟨true, []⟩⟩

/-- Fixture: a Linode upstream listing the single domain `example.com`. -/
def linode_fix : LinodeUpstream :=
  ⟨.ok ⟨200, "dl"⟩, fun _ => .ok ⟨[⟨7, "example.com"⟩]⟩⟩

/-- Fixture: a Porkbun upstream with one matching record. -/
def pb_fix_one : PbUpstream Nat :=
  ⟨.ok ⟨200, "pr"⟩, fun _ => .ok ⟨[⟨11, 5⟩]⟩⟩

/-- Fixture: a Porkbun upstream with two matching records. -/
def pb_fix_two : PbUpstream String :=
  ⟨.ok ⟨200, "pr"⟩, fun _ => .ok ⟨[⟨11, "10.9.8.7"⟩, ⟨12, "10.1.2.3"⟩]⟩⟩

/-! ## Theorems about the quoting normalizer -/

theorem getLast?_append_singleton {α : Type} (l : List α) (a : α) :
    (l ++ [a]).getLast? = some a := by
  induction l with
  | nil => rfl
  | cons b t ih =>
    rw [List.cons_append]
    cases ht : t ++ [a] with
    | nil => exact absurd ht (by simp)
    | cons c u => rw [List.getLast?_cons_cons, ← ht, ih]

theorem getLast?_cons_some {α : Type} (b : α) (l : List α) (a : α)
    (h : l.getLast? = some a) : (b :: l).getLast? = some a := by
  cases l with
  | nil => simp at h
  | cons c u => rw [List.getLast?_cons_cons]; exact h

theorem head?_append_some {α : Type} (l l' : List α) (a : α) (h : l.head? = some a) :
    (l ++ l').head? = some a := by
  cases l with
  | nil => simp at h
  | cons c u => simpa using h

/-- A string that already starts and ends with a quote is returned
unchanged by `ensure_quotes` (the `(true, true)` match arm). -/
theorem ensure_quotes_of_quoted (t : List Char) (h1 : starts_with_quote t = true)
    (h2 : ends_with_quote t = true) : ensure_quotes t = t := by
  unfold ensure_quotes
  rw [h1, h2]

/-- The output of `ensure_quotes` always starts with a quote. -/
theorem ensure_quotes_starts (s : List Char) :
    starts_with_quote (ensure_quotes s) = true := by
  unfold ensure_quotes
  cases h1 : starts_with_quote s <;> cases h2 : ends_with_quote s <;>
    simp only [starts_with_quote, beq_iff_eq] at h1 ⊢
  · rfl
  · rfl
  · exact head?_append_some s ['"'] '"' h1
  · exact h1

/-- The output of `ensure_quotes` always ends with a quote. -/
theorem ensure_quotes_ends (s : List Char) :
    ends_with_quote (ensure_quotes s) = true := by
  unfold ensure_quotes
  cases h1 : starts_with_quote s <;> cases h2 : ends_with_quote s <;>
    simp only [ends_with_quote, beq_iff_eq] at h2 ⊢
  · exact getLast?_cons_some '"' _ '"' (getLast?_append_singleton s '"')
  · exact getLast?_cons_some '"' s '"' h2
  · exact getLast?_append_singleton s '"'
  · exact h2

/-- C6: `ensure_quotes` is idempotent: for every string `s` — including the
empty string and the one-character string consisting of a single
double-quote character — `ensure_quotes (ensure_quotes s) = ensure_quotes s`. -/
theorem ensure_quotes_idempotent (s : List Char) :
    ensure_quotes (ensure_quotes s) = ensure_quotes s :=
  ensure_quotes_of_quoted (ensure_quotes s) (ensure_quotes_starts s) (ensure_quotes_ends s)

/-- C2 (failing input): on the one-character string `é` — which neither
starts nor ends with a double-quote — `ensure_quotes` produces the
3-character, 4-byte string `"é"`, and `strip_quotes` then takes
`record.len() - 2 = 2` *characters* after the first (`record.len()` counts
bytes), returning `é"` with the trailing quote retained instead of the
interior substring `é`.  So `strip_quotes (ensure_quotes s) = s` fails for
multi-byte strings. -/
theorem strip_quotes_multibyte_bug :
    starts_with_quote ['é'] = false ∧ ends_with_quote ['é'] = false ∧
    strip_quotes (ensure_quotes ['é']) = ['é', '"'] ∧
    strip_quotes (ensure_quotes ['é']) ≠ ['é'] := by decide

/-- On strings of 1-byte characters `str::len` agrees with the character
count. -/
theorem str_len_ascii (s : List Char) (ha : ∀ c ∈ s, len_utf8 c = 1) :
    str_len s = s.length := by
  induction s with
  | nil => rfl
  | cons c t ih =>
    have hc : len_utf8 c = 1 := ha c (List.mem_cons_self c t)
    have ht : ∀ x ∈ t, len_utf8 x = 1 := fun x hx => ha x (List.mem_cons_of_mem c hx)
    unfold str_len at ih ⊢
    rw [List.map_cons, List.sum_cons, hc, ih ht, List.length_cons]
    omega

/-- On strings of 1-byte (ASCII) characters the byte length and the
character count agree, and the round trip claimed by the spec does hold. -/
theorem strip_quotes_ensure_quotes_ascii (s : List Char)
    (h1 : starts_with_quote s = false) (h2 : ends_with_quote s = false)
    (ha : ∀ c ∈ s, len_utf8 c = 1) :
    strip_quotes (ensure_quotes s) = s := by
  have hq : ensure_quotes s = '"' :: (s ++ ['"']) := by
    unfold ensure_quotes
    rw [h1, h2]
  rw [hq]
  unfold strip_quotes
  rw [if_pos ⟨rfl, by simp [getLast?_append_singleton]⟩]
  have hlen : str_len ('"' :: (s ++ ['"'])) = s.length + 2 := by
    unfold str_len
    rw [List.map_cons, List.sum_cons, List.map_append, List.sum_append]
    have hs := str_len_ascii s ha
    unfold str_len at hs
    rw [hs]
    simp [len_utf8]
    omega
  rw [hlen]
  have h2' : s.length + 2 - 2 = s.length := by omega
  simp only [List.drop_succ_cons, List.drop_zero, h2']
  exact List.take_left s ['"']

/-! ## Theorems about the Bunny wire encoding -/

/-- Every code of the form `n + 15` falls through to the error arm. -/
theorem bunny_try_from_large (n : Nat) :
    is_err (bunny_try_from (n + 15)) = true := rfl

/-- C7: the Bunny record-type encoding is invertible — decoding
`u64::from(t)` yields `Ok(t)` for every `RecordType t` — and fails
explicitly with an `Err` (never a default record type) on every unmapped
code: 5, 6, 7, 11 and every value from 15 up. -/
theorem bunny_recordtype_invertible :
    (∀ t : RecordType, bunny_try_from (bunny_u64_from t) = .ok t) ∧
    (∀ v : Nat, v = 5 ∨ v = 6 ∨ v = 7 ∨ v = 11 ∨ 15 ≤ v →
      is_err (bunny_try_from v) = true) := by
  constructor
  · intro t; cases t <;> rfl
  · intro v h
    rcases h with h | h | h | h | h
    · subst h; rfl
    · subst h; rfl
    · subst h; rfl
    · subst h; rfl
    · obtain ⟨m, rfl⟩ : ∃ m, v = m + 15 := ⟨v - 15, by omega⟩
      exact bunny_try_from_large m

/-- Witness for C7 at concrete codes. -/
theorem bunny_recordtype_invertible_witness :
    bunny_try_from (bunny_u64_from .TXT) = .ok .TXT ∧
    is_err (bunny_try_from 11) = true ∧
    is_err (bunny_try_from 20) = true :=
  ⟨bunny_recordtype_invertible.1 .TXT,
   bunny_recordtype_invertible.2 11 (by decide),
   bunny_recordtype_invertible.2 20 (by decide)⟩

/-! ## Theorems about the HTTP status contract -/

/-- C8 (amended): a GET through the transport layer whose response status
is neither 200 nor 404 returns an `Err` — never `Ok` — of variant
`HttpError` (not `ApiError`), whose message carries the response status
code and the raw response body. -/
theorem http_get_error_status {T : Type} (decode : String → Except Error T)
    (r : HttpResponse) (h1 : r.status ≠ 200) (h2 : r.status ≠ 404) :
    get_with_headers decode (.ok r) = .error (from_error r) ∧
    from_error r = .HttpError
      ("REST op failed: " ++ toString r.status ++ " " ++ debug_fmt r.body) ∧
    is_err (get_with_headers decode (.ok r)) = true := by
  have h : get_with_headers decode (.ok r) = .error (from_error r) := by
    have hred : get_with_headers decode (.ok r) =
        if r.status = 200 then
          (match decode r.body with
           | .ok obj => .ok (some obj)
           | .error e => .error e)
        else if r.status = 404 then .ok none
        else .error (from_error r) := rfl
    rw [hred, if_neg h1, if_neg h2]
  exact ⟨h, rfl, by rw [h]; rfl⟩

/-- Witness for C8 at status 418. -/
theorem http_get_error_status_witness :
    get_with_headers (fun _ => .ok (0 : Nat)) (.ok ⟨418, "teapot"⟩) =
      .error (from_error ⟨418, "teapot"⟩) ∧
    from_error ⟨418, "teapot"⟩ = .HttpError
      ("REST op failed: " ++ toString (418 : Nat) ++ " " ++ debug_fmt "teapot") ∧
    is_err (get_with_headers (fun _ => .ok (0 : Nat)) (.ok ⟨418, "teapot"⟩)) = true :=
  http_get_error_status (fun _ => .ok (0 : Nat)) ⟨418, "teapot"⟩ (by decide) (by decide)

/-- C8 (counterexample): at status 418 the error variant produced by the
transport layer is `HttpError`, not `ApiError` as the claim states. -/
theorem http_get_error_not_api_error :
    get_with_headers (fun _ => .ok (0 : Nat)) (.ok ⟨418, "teapot"⟩) =
      .error (.HttpError "REST op failed: 418 \"teapot\"") ∧
    is_api_error (get_with_headers (fun _ => .ok (0 : Nat)) (.ok ⟨418, "teapot"⟩)) = false := by
  exact ⟨rfl, rfl⟩

/-! ## Theorems about the not-found path (C3) -/

/-- C3 (amended): a 404 at the transport layer is `Ok(None)`, and a
successful upstream response whose matching-record list is empty makes
`Cloudflare::get_record` return `Ok(None)`; however an upstream 404 on
Cloudflare's record query does *not* yield `Ok(None)` (see the
counterexample). -/
theorem get_record_no_match_ok_none {T : Type} (decode : String → Except Error T)
    (body : String) (u : CfUpstream T) (zid : String)
    (hr : to_option u.records_decode u.records_http = .ok (some ⟨true, []⟩)) :
    get_with_headers decode (.ok ⟨404, body⟩) = .ok none ∧
    to_option decode (.ok ⟨404, body⟩) = .ok none ∧
    cf_get_record u (some zid) = .ok (.ok none, some zid, [CfCall.records_get]) := by
  refine ⟨rfl, rfl, ?_⟩
  unfold cf_get_record cf_get_upstream_record cf_get_zone_id
  rw [hr]
  rfl

/-- Witness for C3 (amended) at the empty-record-list fixture. -/
theorem get_record_no_match_ok_none_witness :
    get_with_headers (fun _ => .ok (0 : Nat)) (.ok ⟨404, "nf"⟩) = .ok none ∧
    to_option (fun _ => .ok (0 : Nat)) (.ok ⟨404, "nf"⟩) = .ok none ∧
    cf_get_record cf_fix (some "zone1") =
      .ok (.ok none, some "zone1", [CfCall.records_get]) :=
  get_record_no_match_ok_none (fun _ => .ok (0 : Nat)) "nf" cf_fix "zone1" rfl

/-- C3 (counterexample): when Cloudflare's record query is answered with
HTTP 404, `get_record` returns `Err(RecordNotFound)` — produced by
`check_response` on the absent response — not `Ok(None)` as the claim
states for every adapter. -/
theorem cf_404_record_not_found :
    cf_get_record cf_fix_404 (some "zone1") =
      .ok (.error (.RecordNotFound "Record not found"), some "zone1", [CfCall.records_get]) ∧
    (Except.error (.RecordNotFound "Record not found") : Except Error (Option String)) ≠
      .ok none := by
  exact ⟨rfl, fun h => Except.noConfusion h⟩

/-! ## Theorems about the single-record assumption (C1) -/

/-- C1 (amended): for the adapters that enforce the single-record
assumption — here Cloudflare and Porkbun, the representatives with an
explicit `nr > 1` check — a response carrying two or more records matching
the queried `(host, rtype)` makes `get_record` /
`get_upstream_record` return `Err(UnexpectedRecord)`.  (The Bunny and
Linode adapters do *not*: they silently select the first match, see the
counterexample.) -/
theorem multi_record_unexpected {T S : Type} (u : CfUpstream T) (zid : String)
    (resp : CfResponse (List (CfGetRecord T)))
    (hr : to_option u.records_decode u.records_http = .ok (some resp))
    (hs : resp.success = true) (hl : 2 ≤ resp.result.length)
    (pu : PbUpstream S) (presp : PbRecords S)
    (hp : to_option pu.retrieve_decode pu.retrieve_http = .ok (some presp))
    (hpl : 2 ≤ presp.records.length) :
    cf_get_record u (some zid) = .ok (.error (.UnexpectedRecord
      ("Returned number of records is " ++ toString resp.result.length ++ ", should be 1")),
      some zid, [CfCall.records_get]) ∧
    pb_get_upstream_record pu = .ok (.error (.UnexpectedRecord
      ("Returned number of records is " ++ toString presp.records.length ++ ", should be 1")),
      [PbCall.retrieve_post]) := by
  constructor
  · have hgt : resp.result.length > 1 := by omega
    simp only [cf_get_record, cf_get_upstream_record, cf_get_zone_id, hr, check_response, hs,
      Bool.not_true, Bool.false_eq_true, if_false, if_pos hgt, List.nil_append]
  · have hgt : presp.records.length > 1 := by omega
    simp only [pb_get_upstream_record, hp, if_pos hgt]

/-- Witness for C1 (amended): two matching records at the Cloudflare and
Porkbun fixtures. -/
theorem multi_record_unexpected_witness :
    cf_get_record cf_fix_two (some "zone1") = .ok (.error (.UnexpectedRecord
      ("Returned number of records is " ++ toString
        (2 : Nat) ++ ", should be 1")), some "zone1", [CfCall.records_get]) ∧
    pb_get_upstream_record pb_fix_two = .ok (.error (.UnexpectedRecord
      ("Returned number of records is " ++ toString (2 : Nat) ++ ", should be 1")),
      [PbCall.retrieve_post]) :=
  multi_record_unexpected cf_fix_two "zone1"
    ⟨true, [⟨"rec1", "10.9.8.7"⟩, ⟨"rec2", "10.1.2.3"⟩]⟩ rfl rfl (by decide)
    pb_fix_two ⟨[⟨11, "10.9.8.7"⟩, ⟨12, "10.1.2.3"⟩]⟩ rfl (by decide)

/-- C1 (counterexample): the Bunny adapter performs no cardinality check —
with two records matching `(host = "h", rtype = TXT)` in the zone, its
`get_record` silently returns the value of the *first* match (`Ok(Some
"v1")`), not `Err(UnexpectedRecord)` as the claim states for every
adapter. -/
theorem bunny_silently_selects_first :
    bunny_u64_from .TXT = 3 ∧
    (([⟨some 3, "h", 1, "v1"⟩, ⟨some 3, "h", 2, "v2"⟩] : List BunnyRaw).filter
      (fun obj => obj.type_code == some 3 && obj.name == "h")).length = 2 ∧
    bunny_get_record 3 "h" [⟨some 3, "h", 1, "v1"⟩, ⟨some 3, "h", 2, "v2"⟩] =
      .ok (some "v1") ∧
    is_unexpected_record
      (bunny_get_record 3 "h" [⟨some 3, "h", 1, "v1"⟩, ⟨some 3, "h", 2, "v2"⟩]) = false := by
  refine ⟨rfl, ?_, rfl, rfl⟩
  rfl

/-! ## Theorems about the empty-zone-list panic (C10) -/

/-- C10: when the Cloudflare zone-lookup endpoint answers successfully
(`success == true`) with an empty zone list, `get_zone_info` panics
(`zones.remove(0)` on an empty `Vec`) instead of returning an `Err`; and
since the CRUD operations of a fresh adapter (empty cache) resolve the
zone id first, `get_record` and `create_record` (dry-run or not) hit the
same panic. -/
theorem cf_empty_zone_list_panics {T : Type} (u : CfUpstream T)
    (h : to_option u.zones_decode u.zones_http = .ok (some ⟨true, []⟩)) :
    cf_get_zone_info u = .panics ∧
    cf_get_zone_id u none = .panics ∧
    cf_get_record u none = .panics ∧
    cf_create_record true u (.ok ()) none = .panics ∧
    cf_create_record false u (.ok ()) none = .panics := by
  have h1 : cf_get_zone_info u = .panics := by
    unfold cf_get_zone_info
    rw [h]
    rfl
  have h2 : cf_get_zone_id u none = .panics := by
    unfold cf_get_zone_id
    rw [h1]
  refine ⟨h1, h2, ?_, ?_, ?_⟩
  · unfold cf_get_record cf_get_upstream_record
    rw [h2]
  · unfold cf_create_record
    rw [h2]
  · unfold cf_create_record
    rw [h2]

/-- Witness for C10 at the empty-zone-list fixture. -/
theorem cf_empty_zone_list_panics_witness :
    cf_get_zone_info cf_fix_no_zones = .panics ∧
    cf_get_zone_id cf_fix_no_zones none = .panics ∧
    cf_get_record cf_fix_no_zones none = .panics ∧
    cf_create_record true cf_fix_no_zones (.ok ()) none = .panics ∧
    cf_create_record false cf_fix_no_zones (.ok ()) none = .panics :=
  cf_empty_zone_list_panics cf_fix_no_zones rfl

/-! ## Theorems about the identifier cache under sequential calls (C5) -/

/-- A populated Cloudflare zone-id cache is returned as-is, with no
upstream call and unchanged contents. -/
theorem cf_get_zone_id_cached {T : Type} (u : CfUpstream T) (id : String) :
    cf_get_zone_id u (some id) = .ok (.ok id, some id, []) := rfl

/-- Iterating `get_zone_id` from a populated cache issues no call and
never changes the cached value. -/
theorem cf_zone_id_iter_cached {T : Type} (u : CfUpstream T) (n : Nat) (id : String) :
    cf_zone_id_iter u n (some id) = .ok (some id, []) := by
  induction n with
  | zero => rfl
  | succ m ih =>
    simp only [cf_zone_id_iter, cf_get_zone_id_cached, ih, List.nil_append]

/-- A populated Linode domain-id cache is returned as-is, with no
upstream call and unchanged contents. -/
theorem linode_get_domain_id_cached (d : String) (u : LinodeUpstream) (id : Nat) :
    linode_get_domain_id d u (some id) = (.ok id, some id, 0) := rfl

/-- Iterating `get_domain_id` from a populated cache issues no call and
never changes the cached value. -/
theorem linode_domain_id_iter_cached (d : String) (u : LinodeUpstream) (n : Nat) (id : Nat) :
    linode_domain_id_iter d u n (some id) = (some id, 0) := by
  induction n with
  | zero => rfl
  | succ m ih =>
    simp only [linode_domain_id_iter, linode_get_domain_id_cached, ih]

/-- C5: when the upstream resolution succeeds, `n ≥ 1` sequential calls
needing the zone/domain identifier perform exactly one upstream resolution
call — the first call populates the cache — and the cached value never
changes once set: a call on a populated cache returns it unchanged with
zero upstream calls. -/
theorem identifier_cache_single_flight {T : Type} (u : CfUpstream T) (z : ZoneInfo)
    (hz : cf_get_zone_info u = .ok (.ok z))
    (d : String) (lu : LinodeUpstream) (dom : LinodeDomain)
    (hd : linode_get_domain d lu = .ok dom)
    (n : Nat) (hn : 1 ≤ n) :
    cf_zone_id_iter u n none = .ok (some z.id, [CfCall.zones_get]) ∧
    linode_domain_id_iter d lu n none = (some dom.id, 1) ∧
    (∀ id, cf_get_zone_id u (some id) = .ok (.ok id, some id, [])) ∧
    (∀ id, linode_get_domain_id d lu (some id) = (.ok id, some id, 0)) := by
  obtain ⟨m, rfl⟩ : ∃ m, n = m + 1 := ⟨n - 1, by omega⟩
  refine ⟨?_, ?_, fun id => rfl, fun id => rfl⟩
  · have hfirst : cf_get_zone_id u none = .ok (.ok z.id, some z.id, [CfCall.zones_get]) := by
      unfold cf_get_zone_id
      rw [hz]
    simp only [cf_zone_id_iter, hfirst, cf_zone_id_iter_cached, List.append_nil]
  · have hfirst : linode_get_domain_id d lu none = (.ok dom.id, some dom.id, 1) := by
      unfold linode_get_domain_id
      rw [hd]
    simp only [linode_domain_id_iter, hfirst, linode_domain_id_iter_cached]

/-- Witness for C5: three sequential calls at the Cloudflare and Linode
fixtures issue exactly one upstream resolution each. -/
theorem identifier_cache_single_flight_witness :
    cf_zone_id_iter cf_fix 3 none = .ok (some "zone1", [CfCall.zones_get]) ∧
    linode_domain_id_iter "example.com" linode_fix 3 none = (some (7 : Nat), 1) ∧
    cf_get_zone_id cf_fix (some "zone1") = .ok (.ok "zone1", some "zone1", []) ∧
    linode_get_domain_id "example.com" linode_fix (some 7) = (.ok 7, some 7, 0) := by
  have h := identifier_cache_single_flight cf_fix ⟨"zone1"⟩ rfl "example.com" linode_fix
    ⟨7, "example.com"⟩ rfl 3 (by decide)
  exact ⟨h.1, h.2.1, h.2.2.1 "zone1", h.2.2.2 7⟩

/-! ## Theorems about dry-run (C4) -/

/-- A call trace with no mutating calls leaves any upstream state
unchanged under any transition function. -/
theorem apply_calls_id_of_no_mutating {Call St : Type} (mutates : Call → Bool)
    (f : Call → St → St) (calls : List Call) (st : St)
    (h : calls.filter mutates = []) : apply_calls mutates f calls st = st := by
  induction calls generalizing st with
  | nil => rfl
  | cons c t ih =>
    rw [List.filter_cons] at h
    cases hc : mutates c with
    | true =>
      rw [hc] at h
      simp at h
    | false =>
      rw [hc] at h
      simp only [Bool.false_eq_true, if_false] at h
      unfold apply_calls at ih ⊢
      simp only [List.foldl_cons, hc, Bool.false_eq_true, if_false]
      exact ih st h

/-- `get_zone_id` issues only read-only calls. -/
theorem cf_get_zone_id_calls {T : Type} (u : CfUpstream T) (cache : Option String)
    {r : Except Error String} {c : Option String} {calls : List CfCall}
    (h : cf_get_zone_id u cache = .ok (r, c, calls)) :
    calls.filter CfCall.mutates = [] := by
  unfold cf_get_zone_id at h
  cases cache with
  | some id =>
    simp only [PanicOr.ok.injEq, Prod.mk.injEq] at h
    obtain ⟨-, -, h3⟩ := h
    subst h3
    rfl
  | none =>
    cases hz : cf_get_zone_info u with
    | panics => rw [hz] at h; exact PanicOr.noConfusion h
    | ok res =>
      rw [hz] at h
      cases res with
      | error e =>
        simp only [PanicOr.ok.injEq, Prod.mk.injEq] at h
        obtain ⟨-, -, h3⟩ := h
        subst h3
        rfl
      | ok zone =>
        simp only [PanicOr.ok.injEq, Prod.mk.injEq] at h
        obtain ⟨-, -, h3⟩ := h
        subst h3
        rfl

/-- When `get_zone_id` returns an id, the cache afterwards holds exactly
that id. -/
theorem cf_get_zone_id_ok_cache {T : Type} (u : CfUpstream T) (cache : Option String)
    {zid : String} {c : Option String} {zcalls : List CfCall}
    (h : cf_get_zone_id u cache = .ok (.ok zid, c, zcalls)) : c = some zid := by
  unfold cf_get_zone_id at h
  cases cache with
  | some id =>
    simp only [PanicOr.ok.injEq, Prod.mk.injEq, Except.ok.injEq] at h
    obtain ⟨h1, h2, -⟩ := h
    rw [← h2, h1]
  | none =>
    cases hz : cf_get_zone_info u with
    | panics => rw [hz] at h; exact PanicOr.noConfusion h
    | ok res =>
      rw [hz] at h
      cases res with
      | error e => simp at h
      | ok zone =>
        simp only [PanicOr.ok.injEq, Prod.mk.injEq, Except.ok.injEq] at h
        obtain ⟨h1, h2, -⟩ := h
        rw [← h2, h1]

/-- `get_upstream_record` issues only read-only calls (the zone GET and
the record-list GET). -/
theorem cf_get_upstream_record_calls {T : Type} (u : CfUpstream T) (cache : Option String)
    {r : Except Error (Option (CfGetRecord T))} {c : Option String} {calls : List CfCall}
    (h : cf_get_upstream_record u cache = .ok (r, c, calls)) :
    calls.filter CfCall.mutates = [] := by
  unfold cf_get_upstream_record at h
  cases hz : cf_get_zone_id u cache with
  | panics => rw [hz] at h; exact PanicOr.noConfusion h
  | ok res =>
    obtain ⟨zr, zc, zcalls⟩ := res
    have hzf : zcalls.filter CfCall.mutates = [] := cf_get_zone_id_calls u cache hz
    have hzf2 : (zcalls ++ [CfCall.records_get]).filter CfCall.mutates = [] := by
      rw [List.filter_append, hzf]
      rfl
    simp only [hz] at h
    cases zr with
    | error e =>
      simp only [PanicOr.ok.injEq, Prod.mk.injEq] at h
      obtain ⟨-, -, h3⟩ := h
      subst h3
      exact hzf
    | ok zid =>
      cases ht : to_option u.records_decode u.records_http with
      | error e =>
        simp only [ht, PanicOr.ok.injEq, Prod.mk.injEq] at h
        obtain ⟨-, -, h3⟩ := h
        subst h3
        exact hzf2
      | ok resp =>
        simp only [ht] at h
        cases hcr : check_response resp with
        | error e =>
          simp only [hcr, PanicOr.ok.injEq, Prod.mk.injEq] at h
          obtain ⟨-, -, h3⟩ := h
          subst h3
          exact hzf2
        | ok recs =>
          simp only [hcr] at h
          by_cases h1 : recs.length > 1
          · rw [if_pos h1] at h
            simp only [PanicOr.ok.injEq, Prod.mk.injEq] at h
            obtain ⟨-, -, h3⟩ := h
            subst h3
            exact hzf2
          · rw [if_neg h1] at h
            by_cases h0 : recs.length = 0
            · rw [if_pos h0] at h
              simp only [PanicOr.ok.injEq, Prod.mk.injEq] at h
              obtain ⟨-, -, h3⟩ := h
              subst h3
              exact hzf2
            · rw [if_neg h0] at h
              cases recs with
              | nil => exact PanicOr.noConfusion h
              | cons rec rest =>
                simp only [PanicOr.ok.injEq, Prod.mk.injEq] at h
                obtain ⟨-, -, h3⟩ := h
                subst h3
                exact hzf2

/-- When `get_upstream_record` returns a lookup result, the zone-id cache
is populated. -/
theorem cf_get_upstream_record_ok_cache {T : Type} (u : CfUpstream T) (cache : Option String)
    {res : Option (CfGetRecord T)} {c : Option String} {calls : List CfCall}
    (h : cf_get_upstream_record u cache = .ok (.ok res, c, calls)) :
    ∃ id, c = some id := by
  unfold cf_get_upstream_record at h
  cases hz : cf_get_zone_id u cache with
  | panics => rw [hz] at h; exact PanicOr.noConfusion h
  | ok zres =>
    obtain ⟨zr, zc, zcalls⟩ := zres
    simp only [hz] at h
    cases zr with
    | error e => simp at h
    | ok zid =>
      have hc : zc = some zid := cf_get_zone_id_ok_cache u cache hz
      have hgoal : c = zc → ∃ id, c = some id := fun hcc => ⟨zid, by rw [hcc, hc]⟩
      cases ht : to_option u.records_decode u.records_http with
      | error e =>
        simp only [ht] at h
        simp at h
      | ok resp =>
        simp only [ht] at h
        cases hcr : check_response resp with
        | error e =>
          simp only [hcr] at h
          simp at h
        | ok recs =>
          simp only [hcr] at h
          by_cases h1 : recs.length > 1
          · rw [if_pos h1] at h
            simp at h
          · rw [if_neg h1] at h
            by_cases h0 : recs.length = 0
            · rw [if_pos h0] at h
              simp only [PanicOr.ok.injEq, Prod.mk.injEq] at h
              exact hgoal h.2.1.symm
            · rw [if_neg h0] at h
              cases recs with
              | nil => exact PanicOr.noConfusion h
              | cons rec rest =>
                simp only [PanicOr.ok.injEq, Prod.mk.injEq] at h
                exact hgoal h.2.1.symm

/-- `Porkbun::get_upstream_record` issues exactly the read-only retrieve
call. -/
theorem pb_get_upstream_record_calls {T : Type} (pu : PbUpstream T)
    {r : Except Error (Option (PbRecord T))} {calls : List PbCall}
    (h : pb_get_upstream_record pu = .ok (r, calls)) :
    calls = [PbCall.retrieve_post] := by
  unfold pb_get_upstream_record at h
  cases ht : to_option pu.retrieve_decode pu.retrieve_http with
  | error e =>
    simp only [ht, PanicOr.ok.injEq, Prod.mk.injEq] at h
    exact h.2.symm
  | ok resp =>
    cases resp with
    | none =>
      simp only [ht, PanicOr.ok.injEq, Prod.mk.injEq] at h
      exact h.2.symm
    | some recs =>
      simp only [ht] at h
      by_cases h1 : recs.records.length > 1
      · rw [if_pos h1] at h
        simp only [PanicOr.ok.injEq, Prod.mk.injEq] at h
        exact h.2.symm
      · rw [if_neg h1] at h
        by_cases h0 : recs.records.length = 0
        · rw [if_pos h0] at h
          simp only [PanicOr.ok.injEq, Prod.mk.injEq] at h
          exact h.2.symm
        · rw [if_neg h0] at h
          cases hrec : recs.records with
          | nil => rw [hrec] at h; exact PanicOr.noConfusion h
          | cons rec rest =>
            rw [hrec] at h
            simp only [PanicOr.ok.injEq, Prod.mk.injEq] at h
            exact h.2.symm

/-- C4: with `dry_run = true`, the mutating operations issue zero mutating
network calls — whatever read-only lookups they perform first, every call
in their trace is non-mutating, so the upstream record state (and hence
any subsequent `get_record`) is unchanged under any upstream transition
function — and, whenever the preliminary read-only lookups succeed, they
return `Ok(())`.  Shown for `Cloudflare::create_record`,
`Cloudflare::delete_record` and `Porkbun::update_record` (including its
create-fallback). -/
theorem dry_run_suppresses_mutation {T S St : Type} (u : CfUpstream T)
    (uS : CfUpstream String) (pu : PbUpstream S)
    (post_resp delete_resp create_resp edit_resp : Except Error Unit)
    (cache cacheS : Option String) (fcf : CfCall → St → St)
    (fpb : PbCall → St → St) (st : St) :
    (∀ r c calls, cf_create_record true u post_resp cache = .ok (r, c, calls) →
      calls.filter CfCall.mutates = [] ∧ apply_calls CfCall.mutates fcf calls st = st) ∧
    (∀ zid c calls, cf_get_zone_id u cache = .ok (.ok zid, c, calls) →
      cf_create_record true u post_resp cache = .ok (.ok (), c, calls)) ∧
    (∀ r c calls, cf_delete_record true uS delete_resp cacheS = .ok (r, c, calls) →
      calls.filter CfCall.mutates = [] ∧ apply_calls CfCall.mutates fcf calls st = st) ∧
    (∀ res c calls, cf_get_upstream_record uS cacheS = .ok (.ok res, c, calls) →
      cf_delete_record true uS delete_resp cacheS = .ok (.ok (), c, calls)) ∧
    (∀ r calls, pb_update_record true pu create_resp edit_resp = .ok (r, calls) →
      calls.filter PbCall.mutates = [] ∧ apply_calls PbCall.mutates fpb calls st = st) ∧
    (∀ res calls, pb_get_upstream_record pu = .ok (.ok res, calls) →
      pb_update_record true pu create_resp edit_resp = .ok (.ok (), calls)) := by
  refine ⟨?_, ?_, ?_, ?_, ?_, ?_⟩
  · intro r c calls h
    unfold cf_create_record at h
    cases hz : cf_get_zone_id u cache with
    | panics => rw [hz] at h; exact PanicOr.noConfusion h
    | ok zres =>
      obtain ⟨zr, zc, zcalls⟩ := zres
      have hzf := cf_get_zone_id_calls u cache hz
      simp only [hz] at h
      cases zr with
      | error e =>
        simp at h
        obtain ⟨-, -, h3⟩ := h
        subst h3
        exact ⟨hzf, apply_calls_id_of_no_mutating _ _ _ _ hzf⟩
      | ok zid =>
        simp at h
        obtain ⟨-, -, h3⟩ := h
        subst h3
        exact ⟨hzf, apply_calls_id_of_no_mutating _ _ _ _ hzf⟩
  · intro zid c calls h
    unfold cf_create_record
    rw [h]
    rfl
  · intro r c calls h
    unfold cf_delete_record at h
    cases hg : cf_get_upstream_record uS cacheS with
    | panics => rw [hg] at h; exact PanicOr.noConfusion h
    | ok gres =>
      obtain ⟨gr, gc, gcalls⟩ := gres
      have hgf := cf_get_upstream_record_calls uS cacheS hg
      simp only [hg] at h
      cases gr with
      | error e =>
        simp at h
        obtain ⟨-, -, h3⟩ := h
        subst h3
        exact ⟨hgf, apply_calls_id_of_no_mutating _ _ _ _ hgf⟩
      | ok res =>
        cases res with
        | none =>
          simp at h
          obtain ⟨-, -, h3⟩ := h
          subst h3
          exact ⟨hgf, apply_calls_id_of_no_mutating _ _ _ _ hgf⟩
        | some rec =>
          obtain ⟨id, hid⟩ := cf_get_upstream_record_ok_cache uS cacheS hg
          subst hid
          simp only [cf_get_zone_id_cached] at h
          simp at h
          obtain ⟨-, -, h3⟩ := h
          subst h3
          exact ⟨hgf, apply_calls_id_of_no_mutating _ _ _ _ hgf⟩
  · intro res c calls h
    unfold cf_delete_record
    rw [h]
    cases res with
    | none => rfl
    | some rec =>
      obtain ⟨id, hid⟩ := cf_get_upstream_record_ok_cache uS cacheS h
      subst hid
      simp only [cf_get_zone_id_cached]
      simp
  · intro r calls h
    unfold pb_update_record at h
    cases hp : pb_get_upstream_record pu with
    | panics => rw [hp] at h; exact PanicOr.noConfusion h
    | ok pres =>
      obtain ⟨pr, pcalls⟩ := pres
      have hpc : pcalls = [PbCall.retrieve_post] := pb_get_upstream_record_calls pu hp
      have hpf : pcalls.filter PbCall.mutates = [] := by rw [hpc]; rfl
      simp only [hp] at h
      cases pr with
      | error e =>
        simp at h
        obtain ⟨-, h2⟩ := h
        subst h2
        exact ⟨hpf, apply_calls_id_of_no_mutating _ _ _ _ hpf⟩
      | ok res =>
        cases res with
        | none =>
          simp [pb_create_record] at h
          obtain ⟨-, h2⟩ := h
          subst h2
          exact ⟨hpf, apply_calls_id_of_no_mutating _ _ _ _ hpf⟩
        | some rec =>
          simp at h
          obtain ⟨-, h2⟩ := h
          subst h2
          exact ⟨hpf, apply_calls_id_of_no_mutating _ _ _ _ hpf⟩
  · intro res calls h
    unfold pb_update_record
    rw [h]
    cases res with
    | none => simp [pb_create_record]
    | some rec => rfl

/-- Witness for C4 at the fixtures: dry-run create/delete/update return
`Ok(())`, their traces carry no mutating call, and replaying the traces
leaves any upstream state unchanged. -/
theorem dry_run_suppresses_mutation_witness :
    ([CfCall.zones_get].filter CfCall.mutates = [] ∧
      apply_calls CfCall.mutates (fun _ n => n + 1) [CfCall.zones_get] (0 : Nat) = 0) ∧
    cf_create_record true cf_fix (.ok ()) none = .ok (.ok (), some "zone1", [CfCall.zones_get]) ∧
    ([CfCall.zones_get, CfCall.records_get].filter CfCall.mutates = [] ∧
      apply_calls CfCall.mutates (fun _ n => n + 1) [CfCall.zones_get, CfCall.records_get]
        (0 : Nat) = 0) ∧
    cf_delete_record true cf_fix_one (.ok ()) none =
      .ok (.ok (), some "zone1", [CfCall.zones_get, CfCall.records_get]) ∧
    pb_update_record true pb_fix_one (.ok ()) (.ok ()) = .ok (.ok (), [PbCall.retrieve_post]) := by
  have h := dry_run_suppresses_mutation cf_fix cf_fix_one pb_fix_one
    (.ok ()) (.ok ()) (.ok ()) (.ok ()) none none
    (fun _ n => n + 1) (fun _ n => n + 1) (0 : Nat)
  refine ⟨h.1 (.ok ()) (some "zone1") [CfCall.zones_get] rfl, ?_, ?_, ?_, ?_⟩
  · exact h.2.1 "zone1" (some "zone1") [CfCall.zones_get] rfl
  · exact h.2.2.1 (.ok ()) (some "zone1")
      [CfCall.zones_get, CfCall.records_get] rfl
  · exact h.2.2.2.1 (some ⟨"rec1", "10.9.8.7"⟩) (some "zone1")
      [CfCall.zones_get, CfCall.records_get] rfl
  · exact h.2.2.2.2.2 (some ⟨11, 5⟩) [PbCall.retrieve_post] rfl

/-! ## Theorems about concurrent first-time callers (C9) -/

/-- C9: in the interleaving model of two concurrent `get_zone_id` /
`get_id` callers — where the mutex is acquired before checking the cache
and held across the upstream resolve call until the result is stored —
every reachable state has issued at most one upstream resolution call: two
concurrent first calls can never both perform the upstream lookup. -/
theorem concurrent_single_resolution (s : Sys) (h : Reaches init s) :
    s.count ≤ 1 := by
  have hinit : init ∈ reach := by decide
  have hclosed : ∀ t ∈ reach, ∀ v ∈ next t, v ∈ reach := by decide
  have hbound : ∀ t ∈ reach, t.count ≤ 1 := by decide
  have hmem : s ∈ reach := by
    induction h with
    | refl => exact hinit
    | tail hr hstep ih => exact hclosed _ ih _ hstep
  exact hbound s hmem

/-- Witness for C9: a complete interleaving — first caller resolves while
holding the mutex, second caller then hits the populated cache — ends with
exactly one upstream resolution. -/
theorem concurrent_single_resolution_witness :
    (⟨.done, .done, none, true, 1⟩ : Sys).count ≤ 1 := by
  apply concurrent_single_resolution
  have h1 : Reaches init ⟨.locked, .start, some 0, false, 0⟩ :=
    Reaches.tail (Reaches.refl init) (by decide)
  have h2 : Reaches init ⟨.resolving, .start, some 0, false, 1⟩ :=
    Reaches.tail h1 (by decide)
  have h3 : Reaches init ⟨.done, .start, none, true, 1⟩ :=
    Reaches.tail h2 (by decide)
  have h4 : Reaches init ⟨.done, .locked, some 1, true, 1⟩ :=
    Reaches.tail h3 (by decide)
  exact Reaches.tail h4 (by decide)

end ZoneUpdate
